import Mathlib

/-
  Verification of the MemoryService technical-memory core
  (src/services/MemoryService.js) against its natural-language
  specification.

  The JavaScript code is shallowly embedded: pure string analysis
  functions become Lean functions on `String` / `List Char`; the
  MongoDB-backed persistence is modelled as explicit list state; a
  thrown JS exception is modelled as `none` / an explicit error field.
  JS `number` division only ever happens here on small counts, where
  IEEE double rounding cannot change the outcome of the comparisons
  involved, so those comparisons are embedded as exact integer
  cross-multiplications (noted at each use).
-/

namespace MemoryService

/-- The backtick character (U+0060), written via an escape. -/
def backtick : Char := '\x60'

/-- ASCII lowering of one character, as JS `toLowerCase` acts on the
ASCII range (all texts analysed by MemoryService are ASCII). -/
def jsLowerChar (c : Char) : Char :=
  if 'A' ≤ c ∧ c ≤ 'Z' then Char.ofNat (c.toNat + 32) else c

/-- JS `String.prototype.toLowerCase` (ASCII range). -/
def jsToLower (s : String) : String :=
  String.mk (s.data.map jsLowerChar)

/-- Does `needle` occur as a contiguous segment of `hay`?  This is JS
`String.prototype.includes` at the character-list level. -/
def containsSeg (hay needle : List Char) : Bool :=
  match hay with
  | [] => needle.isEmpty
  | _ :: t => needle.isPrefixOf hay || containsSeg t needle

/-- JS `s.includes(sub)`. -/
def jsIncludes (s sub : String) : Bool :=
  containsSeg s.data sub.data

/-- JS `Array.prototype.join(sep)`. -/
def jsJoin (sep : String) : List String → String
  | [] => ""
  | [x] => x
  | x :: xs => x ++ sep ++ jsJoin sep xs

/-- Whitespace characters relevant to the strings MemoryService
builds; JS `trim` strips the full Unicode whitespace set, of which
only these occur here. -/
def isJsSpace (c : Char) : Bool :=
  c = ' ' || c = '\n' || c = '\t' || c = '\r'

/-- JS `String.prototype.trim`. -/
def jsTrim (s : String) : String :=
  String.mk (((s.data.dropWhile isJsSpace).reverse.dropWhile isJsSpace).reverse)

/-- JS `[...new Set(xs)]`: deduplicate keeping first occurrences. -/
def jsSetDedupGo (seen : List String) : List String → List String
  | [] => []
  | x :: xs =>
    if seen.contains x then jsSetDedupGo seen xs
    else x :: jsSetDedupGo (x :: seen) xs

/-- JS `[...new Set(xs)]`. -/
def jsSetDedup (l : List String) : List String :=
  jsSetDedupGo [] l

/-- JS `str.replace(pat, rep)` with a non-empty plain-string pattern:
replaces the first occurrence only. -/
def replaceFirstSeg (pat rep : List Char) : List Char → List Char
  | [] => []
  | c :: t =>
    if pat.isPrefixOf (c :: t) then rep ++ (c :: t).drop pat.length
    else c :: replaceFirstSeg pat rep t

/-- JS `str.replace(pat, rep)` (first occurrence, plain strings). -/
def jsReplaceFirst (s pat rep : String) : String :=
  String.mk (replaceFirstSeg pat.data rep.data s.data)

/- Keyword tables, verbatim from MemoryService.js. -/

def languageKeywords : List String :=
  ["javascript", "typescript", "python", "java", "c++", "c#", "go", "rust", "php", "ruby",
   "kotlin", "swift", "scala", "clojure", "haskell", "elm", "dart", "r", "matlab", "sql",
   "html", "css", "bash", "shell", "powershell", "lua", "perl", "elixir", "erlang", "f#"]

def frameworkKeywords : List String :=
  ["react", "vue", "angular", "svelte", "express", "fastapi", "django", "flask", "spring",
   "laravel", "rails", "nextjs", "nuxt", "gatsby", "astro", "ember", "backbone", "jquery",
   "bootstrap", "tailwind", "material-ui", "ant-design", "chakra", "redux", "mobx", "vuex",
   "tensorflow", "pytorch", "keras", "scikit-learn", "pandas", "numpy", "matplotlib"]

def technologyKeywords : List String :=
  ["docker", "kubernetes", "aws", "azure", "gcp", "firebase", "mongodb", "postgresql",
   "mysql", "redis", "elasticsearch", "graphql", "rest", "api", "microservices", "serverless",
   "git", "github", "gitlab", "jenkins", "ci/cd", "terraform", "ansible", "nginx", "apache",
   "node.js", "deno", "webpack", "vite", "babel", "typescript", "jest", "cypress", "playwright"]

/-- `detectProgrammingLanguages(text)`: keep every language keyword
occurring in the lowercased text (also matching `#` spelled `sharp`),
then deduplicate via `Set`. -/
def detectProgrammingLanguages (text : String) : List String :=
  let lowerText := jsToLower text
  jsSetDedup (languageKeywords.filter (fun lang =>
    jsIncludes lowerText lang || jsIncludes lowerText (jsReplaceFirst lang "#" "sharp")))

/-- `detectFrameworks(text)`. -/
def detectFrameworks (text : String) : List String :=
  let lowerText := jsToLower text
  jsSetDedup (frameworkKeywords.filter (fun fw => jsIncludes lowerText fw))

/-- `detectTechnologies(text)`. -/
def detectTechnologies (text : String) : List String :=
  let lowerText := jsToLower text
  jsSetDedup (technologyKeywords.filter (fun tech => jsIncludes lowerText tech))

/- `extractCodeBlocks(text)`: counts matches of the two global regexes
     codeBlockRegex  = /(three backticks)[\s\S]*?(three backticks)/g
     inlineCodeRegex = /(backtick)[^(backtick)]+(backtick)/g
   A JS global regex scan repeatedly attempts a match at the current
   position; on success it continues right after the match, on failure
   it advances one character.  The scanners below implement exactly
   that discipline. -/

/-- Does the list start with three backticks? -/
def startsWithTriple : List Char → Bool
  | a :: b :: c :: _ => a = backtick && b = backtick && c = backtick
  | _ => false

/-- Index of the earliest occurrence of three consecutive backticks
(the lazy `[\s\S]*?` body search of the closing delimiter). -/
def findTripleIdx : List Char → Option Nat
  | [] => none
  | c :: cs =>
    if startsWithTriple (c :: cs) then some 0
    else (findTripleIdx cs).map (fun i => i + 1)

/-- Number of matches of `codeBlockRegex` in a global scan: at an
opening triple the engine looks for the earliest closing triple after
it; on success the scan resumes after the closing triple, and any
failed attempt advances one character. -/
def codeBlockCount : List Char → Nat
  | [] => 0
  | c :: cs =>
    if h : startsWithTriple (c :: cs) ∧ (findTripleIdx (cs.drop 2)).isSome then
      1 + codeBlockCount ((cs.drop 2).drop ((findTripleIdx (cs.drop 2)).getD 0 + 3))
    else codeBlockCount cs
termination_by l => l.length
decreasing_by
  · simp [List.length_drop]
    omega
  · simp

/-- Number of matches of `inlineCodeRegex` in a global scan: at an
opening backtick the engine needs a non-empty backtick-free run
(`takeWhile`) followed by a closing backtick; it then continues after
the closing backtick.  Any failed attempt advances one character. -/
def inlineCodeCount : List Char → Nat
  | [] => 0
  | c :: cs =>
    if h : c = backtick ∧ cs.takeWhile (fun x => x != backtick) ≠ [] ∧
        cs.dropWhile (fun x => x != backtick) ≠ [] then
      1 + inlineCodeCount (cs.dropWhile (fun x => x != backtick)).tail
    else inlineCodeCount cs
termination_by l => l.length
decreasing_by
  · have h1 : (t.dropWhile (fun x => x != backtick)).length ≤ t.length :=
      (List.dropWhile_sublist (fun x => x != backtick)).length_le
    simp at h1 ⊢
    omega
  · simp

/-- Result shape of `extractCodeBlocks`. -/
structure CodeBlocks where
  blocks : Nat
  inline : Nat
  hasCode : Bool
deriving Repr, DecidableEq

/-- `extractCodeBlocks(text)`. -/
def extractCodeBlocks (text : String) : CodeBlocks :=
  let blocks := codeBlockCount text.data
  let inline := inlineCodeCount text.data
  { blocks := blocks, inline := inline, hasCode := blocks != 0 || inline != 0 }

/-- `classifyQuestionType(message)`: first-match-wins keyword chain on
the lowercased message. -/
def classifyQuestionType (message : String) : String :=
  let m := jsToLower message
  if jsIncludes m "how to" || jsIncludes m "how do" then "how-to"
  else if jsIncludes m "debug" || jsIncludes m "error" || jsIncludes m "fix" then "debugging"
  else if jsIncludes m "review" || jsIncludes m "feedback" then "code-review"
  else if jsIncludes m "best practice" || jsIncludes m "recommend" then "best-practices"
  else if jsIncludes m "explain" || jsIncludes m "what is" then "explanation"
  else if jsIncludes m "optimize" || jsIncludes m "performance" then "optimization"
  else if jsIncludes m "design" || jsIncludes m "architecture" then "architecture"
  else "general"

/-- The three keyword tiers of `assessComplexity`. -/
def simpleIndicators : List String := ["hello", "basic", "simple", "quick", "easy"]

def mediumIndicators : List String := ["implement", "create", "build", "design", "integrate"]

def complexIndicators : List String :=
  ["architecture", "scalable", "optimize", "refactor", "complex", "advanced", "performance"]

/-- `assessComplexity(message)`: complex keywords first, then medium,
else simple.  (The `simple` tier list is declared in the source but
never consulted.) -/
def assessComplexity (message : String) : String :=
  let lowerMessage := jsToLower message
  if complexIndicators.any (fun ind => jsIncludes lowerMessage ind) then "complex"
  else if mediumIndicators.any (fun ind => jsIncludes lowerMessage ind) then "medium"
  else "simple"

/-- `detectProjectMention(message)`. -/
def detectProjectMention (message : String) : Bool :=
  let projectIndicators :=
    ["project", "app", "application", "system", "platform", "tool", "service", "website"]
  let lowerMessage := jsToLower message
  projectIndicators.any (fun ind => jsIncludes lowerMessage ind)

/- Interactions and `extractTechnicalContext`.  A message field may be
   absent (`undefined`/`null` in JS), modelled as `Option String`; a
   thrown `TypeError` is modelled as a `none` result. -/

/-- JS string coercion as performed by `+` on a possibly-absent value:
`undefined + ' '` yields the text `"undefined "`. -/
def jsStringOf : Option String → String
  | some s => s
  | none => "undefined"

/-- The `interaction.userMessage + ' ' + interaction.botResponse`
concatenation used throughout `MemoryService`. -/
def combinedText (userMessage botResponse : Option String) : String :=
  jsStringOf userMessage ++ " " ++ jsStringOf botResponse

/-- `classifyQuestionType(message)` when the message may be absent:
`message.toLowerCase()` throws a TypeError on `undefined`/`null`. -/
def classifyQuestionTypeAt (message : Option String) : Option String :=
  message.map classifyQuestionType

/-- `assessComplexity(message)` when the message may be absent. -/
def assessComplexityAt (message : Option String) : Option String :=
  message.map assessComplexity

/-- `detectProjectMention(message)` when the message may be absent. -/
def detectProjectMentionAt (message : Option String) : Option Bool :=
  message.map detectProjectMention

/-- A Discord interaction as passed to `storeInteraction`. -/
structure Interaction where
  userId : String
  channel : String
  userMessage : Option String
  botResponse : Option String
deriving Repr, DecidableEq

/-- The tag record built by `extractTechnicalContext`. -/
structure TechnicalContext where
  languages : List String
  frameworks : List String
  technologies : List String
  codeBlocks : CodeBlocks
  questionType : String
  complexity : String
  isProjectRelated : Bool
deriving Repr, DecidableEq

/-- `extractTechnicalContext(interaction)`: the object literal
evaluates its fields in order; if `classifyQuestionType`,
`assessComplexity` or `detectProjectMention` throws (absent message),
the whole extraction throws (`none`). -/
def extractTechnicalContext (i : Interaction) : Option TechnicalContext :=
  let combined := combinedText i.userMessage i.botResponse
  do
    let questionType ← classifyQuestionTypeAt i.userMessage
    let complexity ← assessComplexityAt i.userMessage
    let isProjectRelated ← detectProjectMentionAt i.userMessage
    pure { languages := detectProgrammingLanguages combined,
           frameworks := detectFrameworks combined,
           technologies := detectTechnologies combined,
           codeBlocks := extractCodeBlocks combined,
           questionType := questionType,
           complexity := complexity,
           isProjectRelated := isProjectRelated }

/- Control-flow model of `storeInteraction` and its three persistence
   operations.  Which low-level operations fail is abstracted by a
   record of failure flags; the model follows the source statement by
   statement:

     async storeInteraction(interaction) {
       await this.initialize();            -- outside the try block;
                                           -- initialize() catches, logs
                                           -- and RETHROWS connect errors
       try {
         await this.discordLogs.insertOne(enrichedInteraction);
         await this.updateProjectContext(interaction);   -- own try/catch
         await this.updateSkillProgression(interaction); -- own try/catch
       } catch (error) {
         logger.error('Failed to store interaction:', error);
       }
     }
-/

/-- Which of the fallible persistence steps fail. -/
structure PersistenceFailures where
  init : Bool
  insert : Bool
  project : Bool
  skill : Bool
deriving Repr, DecidableEq

/-- Observable outcome of one `storeInteraction` call: which
persistence operations were attempted (in order), which errors were
logged, and whether an error propagated to the caller. -/
structure StoreInteractionRun where
  attempted : List String
  logged : List String
  thrownToCaller : Bool
deriving Repr, DecidableEq

/-- One `storeInteraction` call under the given failure flags. -/
def storeInteractionRun (f : PersistenceFailures) : StoreInteractionRun :=
  if f.init then
    -- initialize(): catch { logger.error(...); throw error; } — the
    -- rethrown error leaves storeInteraction (its try has not begun).
    { attempted := [], logged := ["initialize"], thrownToCaller := true }
  else if f.insert then
    -- insertOne throws inside storeInteraction's try: caught and
    -- logged there, so nothing propagates — but the two upserts that
    -- follow it in the same try block are never reached.
    { attempted := ["interactionInsert"], logged := ["storeInteraction"],
      thrownToCaller := false }
  else
    -- updateProjectContext and updateSkillProgression each swallow
    -- their own errors in a local try/catch, so both run regardless.
    { attempted := ["interactionInsert", "projectUpsert", "skillUpsert"],
      logged := (if f.project then ["updateProjectContext"] else []) ++
                (if f.skill then ["updateSkillProgression"] else []),
      thrownToCaller := false }

/- Difficulty averaging and learning trend (skill progressions). -/

/-- A skill `recentInteractions` entry; the source records timestamp,
channel, context and difficulty, of which only `difficulty` is read by
the difficulty/trend computations. -/
structure SkillInteraction where
  difficulty : String
deriving Repr, DecidableEq

/-- `difficultyScores[d] || 1`: the score map
`{simple: 1, medium: 2, complex: 3}` with fallback 1. -/
def difficultyScore (d : String) : Nat :=
  if d = "simple" then 1
  else if d = "medium" then 2
  else if d = "complex" then 3
  else 1

/-- `calculateAverageDifficulty(interactions)`.  The JS comparisons
`totalScore / length < 1.5` and `< 2.5` on IEEE doubles are embedded
as the exact cross-multiplied tests `2*total < 3*len` and
`2*total < 5*len`; double rounding cannot flip these comparisons for
any list shorter than 2^51 elements. -/
def calculateAverageDifficulty (interactions : List SkillInteraction) : String :=
  if interactions.length = 0 then "unknown"
  else
    let totalScore := (interactions.map (fun i => difficultyScore i.difficulty)).sum
    if 2 * totalScore < 3 * interactions.length then "simple"
    else if 2 * totalScore < 5 * interactions.length then "medium"
    else "complex"

/-- `calculateLearningTrend(interactions)`: `slice(-5)` is
`drop (length - 5)` and `slice(0, -5)` is `take (length - 5)`. -/
def calculateLearningTrend (interactions : List SkillInteraction) : String :=
  if interactions.length < 3 then "insufficient-data"
  else
    let recentInteractions := interactions.drop (interactions.length - 5)
    let olderInteractions := interactions.take (interactions.length - 5)
    let recentScore := difficultyScore (calculateAverageDifficulty recentInteractions)
    let olderScore := difficultyScore (calculateAverageDifficulty olderInteractions)
    if recentScore > olderScore then "improving"
    else if recentScore < olderScore then "declining"
    else "stable"

/- Working-hour classification. -/

/-- `categorizeWorkingTime(peakHours)`.  (The source also computes a
`nightHours` bucket that no branch consults.) -/
def categorizeWorkingTime (peakHours : List Nat) : String :=
  let morningHours := peakHours.filter (fun h => decide (6 ≤ h) && decide (h < 12))
  let afternoonHours := peakHours.filter (fun h => decide (12 ≤ h) && decide (h < 18))
  let eveningHours := peakHours.filter (fun h => decide (18 ≤ h) && decide (h < 24))
  if morningHours.length ≥ afternoonHours.length ∧
      morningHours.length ≥ eveningHours.length then "morning-person"
  else if eveningHours.length ≥ afternoonHours.length then "evening-person"
  else "afternoon-person"

/-- Classification rule as the specification words it: bucket counts
for hours 6–11, 12–17 and 18–23, ties favouring morning then
evening. -/
def specWorkingTimeLabel (peakHours : List Nat) : String :=
  let morningCount := (peakHours.filter (fun h => decide (6 ≤ h) && decide (h ≤ 11))).length
  let afternoonCount := (peakHours.filter (fun h => decide (12 ≤ h) && decide (h ≤ 17))).length
  let eveningCount := (peakHours.filter (fun h => decide (18 ≤ h) && decide (h ≤ 23))).length
  if morningCount ≥ afternoonCount ∧ morningCount ≥ eveningCount then "morning-person"
  else if eveningCount ≥ afternoonCount then "evening-person"
  else "afternoon-person"

/- Question-type precedence as the specification words it: an ordered
   rule list scanned first-match-wins. -/

/-- The spec's ordered rule list for question classification. -/
def questionRules : List (String × List String) :=
  [("how-to", ["how to", "how do"]),
   ("debugging", ["debug", "error", "fix"]),
   ("code-review", ["review", "feedback"]),
   ("best-practices", ["best practice", "recommend"]),
   ("explanation", ["explain", "what is"]),
   ("optimization", ["optimize", "performance"]),
   ("architecture", ["design", "architecture"])]

/-- First-match-wins evaluation of an ordered rule list over the
lowercased message, defaulting to `"general"`. -/
def firstMatchLabel (m : String) : List (String × List String) → String
  | [] => "general"
  | (label, keys) :: rest =>
    if keys.any (fun k => jsIncludes m k) then label else firstMatchLabel m rest

/- Interaction store and the channel-breakdown aggregation of
   `getTechnicalDiscordPatterns`.  The `discord_interactions`
   collection is modelled as a list in insertion order; only the
   fields the aggregation reads are carried. -/

/-- A stored interaction document as read back by the aggregation. -/
structure StoredInteraction where
  userId : String
  channel : String
  timestamp : Int
deriving Repr, DecidableEq

/-- `insertOne`: append to the collection. -/
def insertInteraction (store : List StoredInteraction) (r : StoredInteraction) :
    List StoredInteraction :=
  store ++ [r]

/-- Storing a batch of interactions one `storeInteraction` call at a
time (each performing one insert on its success path). -/
def storeAllInteractions (store rs : List StoredInteraction) : List StoredInteraction :=
  rs.foldl insertInteraction store

/-- The Mongo query of `getTechnicalDiscordPatterns`:
`find({userId, timestamp: {$gte: cutoff}}).sort({timestamp: -1}).limit(50)`. -/
def recentInteractionsQuery (store : List StoredInteraction) (userId : String)
    (cutoff : Int) : List StoredInteraction :=
  (((store.filter (fun r => r.userId == userId && decide (cutoff ≤ r.timestamp))).mergeSort
      (fun a b => decide (b.timestamp ≤ a.timestamp))).take 50)

/-- `channelBreakdown[channel].count++` with on-demand creation, i.e.
bump a key in an insertion-ordered association list. -/
def bumpChannel (acc : List (String × Nat)) (channel : String) : List (String × Nat) :=
  match acc with
  | [] => [(channel, 1)]
  | (k, n) :: rest =>
    if k = channel then (k, n + 1) :: rest else (k, n) :: bumpChannel rest channel

/-- The per-channel interaction counts built by the `forEach` loop of
`getTechnicalDiscordPatterns` (topics are not modelled; no claim
mentions them). -/
def channelBreakdown (l : List StoredInteraction) : List (String × Nat) :=
  l.foldl (fun acc r => bumpChannel acc r.channel) []

/-- Total of the per-channel counts. -/
def sumCounts (l : List (String × Nat)) : Nat :=
  (l.map (fun p => p.2)).sum

/- The summary compiler `generateTechnicalContextSummary` and its
   helper `describeTechnicalWorkingPatterns`.  Aggregate inputs are
   embedded with `Option` wherever the source guards with optional
   chaining or truthiness (an aggregation error path hands the
   compiler an empty object `{}`, so every such field may be absent).
   Fields of the aggregates that no branch of the compiler reads are
   not carried. -/

/-- One entry of `technicalInsights`; `date` is `session.createdAt`
modelled by its `toDateString()` rendering (the only way the compiler
consumes it), absent when the session had no `createdAt`. -/
structure TechnicalInsight where
  date : Option String
  focusArea : String
  technologies : List String
  productivity : String
deriving Repr, DecidableEq

/-- The `complexityDistribution` object; `Object.values` enumerates
simple, medium, complex in insertion order. -/
structure ComplexityDistribution where
  simple : Nat
  medium : Nat
  complex : Nat
deriving Repr, DecidableEq

/-- The fields of the `discordPatterns` aggregate that the summary
compiler reads.  `questionTypes` carries `Object.entries` of the
question-type tally in insertion order. -/
structure DiscordPatterns where
  preferredLanguages : Option (List String)
  preferredFrameworks : Option (List String)
  complexityDistribution : Option ComplexityDistribution
  questionTypes : Option (List (String × Nat))
  mostActiveChannel : Option String
deriving Repr, DecidableEq

/-- The fields of a `projectContexts` entry read by the compiler. -/
structure ProjectContextSummary where
  name : String
  technologies : List String
  interactionCount : Nat
deriving Repr, DecidableEq

/-- The fields of a `skillPatterns` entry read by the compiler. -/
structure SkillPatternSummary where
  name : String
  learningTrend : String
deriving Repr, DecidableEq

/-- The `workingHours` aggregate; only `preferredWorkingTime` is read
by the description helper. -/
structure WorkingHoursInfo where
  preferredWorkingTime : Option String
deriving Repr, DecidableEq

/-- A `weeklyPatterns` entry: day name to activity counts (only the
two counts the comparator adds are carried). -/
structure DayActivity where
  technicalSessions : Nat
  discordActivity : Nat
deriving Repr, DecidableEq

/-- The `workflowPatterns` aggregate; `taskBreakdownPatterns` carries
the `planningPreference` string of that sub-object when present. -/
structure WorkflowPatterns where
  workingHours : Option WorkingHoursInfo
  taskBreakdownPatterns : Option String
  weeklyPatterns : Option (List (String × DayActivity))
deriving Repr, DecidableEq

/-- `describeTechnicalWorkingPatterns(workflowPatterns)`: collect the
truthy descriptions and comma-join them, with a fallback when none
qualify. -/
def describeTechnicalWorkingPatterns (wp : WorkflowPatterns) : String :=
  let fromHours :=
    match wp.workingHours with
    | some wh =>
      match wh.preferredWorkingTime with
      | some t => if t = "" then [] else [t]
      | none => []
    | none => []
  let fromPlanning :=
    match wp.taskBreakdownPatterns with
    | some p => if p = "" then [] else [p ++ " planning style"]
    | none => []
  let fromWeekly :=
    match wp.weeklyPatterns with
    | some days =>
      let sorted := days.mergeSort (fun a b =>
        decide (b.2.technicalSessions + b.2.discordActivity ≤
          a.2.technicalSessions + a.2.discordActivity))
      match sorted.head? with
      | some d => if d.1 = "" then [] else ["most active on " ++ d.1 ++ "s"]
      | none => []
    | none => []
  let joined := jsJoin ", " (fromHours ++ fromPlanning ++ fromWeekly)
  if joined = "" then "No clear working patterns" else joined

/-- `generateTechnicalContextSummary(...)`: sections are appended to
the constant header, then `summary.trim() || fallback` is returned.
`complexRatio > 0.4` on IEEE doubles is embedded exactly as
`5 * complex > 2 * total`, and `Math.round(complexRatio * 100)` as
`(200 * complex + total) / (2 * total)` in integer (floor) division;
double rounding cannot flip either for any representable counts. -/
def generateTechnicalContextSummary (technicalInsights : List TechnicalInsight)
    (discordPatterns : DiscordPatterns) (projectContexts : List ProjectContextSummary)
    (skillPatterns : List SkillPatternSummary) (workflowPatterns : WorkflowPatterns) :
    String :=
  let s0 := "TECHNICAL CONTEXT:\n\n"
  let s1 :=
    match technicalInsights with
    | [] => s0
    | latestSession :: _ =>
      s0 ++ "Latest work session (" ++ jsStringOf latestSession.date ++
        "): Focus area was " ++ latestSession.focusArea ++ ". " ++
        "Technologies: " ++ jsJoin ", " latestSession.technologies ++
        ". Productivity: " ++ latestSession.productivity ++ "\n\n"
  let s2 :=
    match discordPatterns.preferredLanguages with
    | some langs =>
      if langs.length > 0 then
        s1 ++ "PREFERRED LANGUAGES: " ++ jsJoin ", " langs ++ "\n"
      else s1
    | none => s1
  let s3 :=
    match discordPatterns.preferredFrameworks with
    | some fws =>
      if fws.length > 0 then
        s2 ++ "PREFERRED FRAMEWORKS: " ++ jsJoin ", " fws ++ "\n\n"
      else s2
    | none => s2
  let s4 :=
    if projectContexts.length > 0 then
      s3 ++ "ACTIVE PROJECTS:\n" ++
        String.join ((projectContexts.take 3).map (fun project =>
          "- " ++ project.name ++ ": " ++ jsJoin ", " project.technologies ++
            " (" ++ toString project.interactionCount ++ " interactions)\n")) ++ "\n"
    else s3
  let s5 :=
    if skillPatterns.length > 0 then
      let topSkills := skillPatterns.take 3
      let base := s4 ++ "SKILL DEVELOPMENT FOCUS: " ++
        jsJoin ", " (topSkills.map (fun s => s.name)) ++ "\n"
      let improvingSkills := topSkills.filter (fun s => s.learningTrend == "improving")
      (if improvingSkills.length > 0 then
        base ++ "Currently improving: " ++
          jsJoin ", " (improvingSkills.map (fun s => s.name)) ++ "\n"
      else base) ++ "\n"
    else s4
  let s6 :=
    match discordPatterns.complexityDistribution with
    | some cd =>
      let totalQuestions := cd.simple + cd.medium + cd.complex
      if totalQuestions > 0 ∧ 5 * cd.complex > 2 * totalQuestions then
        s5 ++ "COMPLEXITY PREFERENCE: Tends to work on complex problems (" ++
          toString ((200 * cd.complex + totalQuestions) / (2 * totalQuestions)) ++
          "% complex questions)\n\n"
      else s5
    | none => s5
  let s7 :=
    match discordPatterns.questionTypes with
    | some qts =>
      let topQuestionTypes :=
        ((qts.mergeSort (fun a b => decide (b.2 ≤ a.2))).take 2).map (fun p => p.1)
      if topQuestionTypes.length > 0 then
        s6 ++ "QUESTION PATTERNS: Often asks about " ++
          jsJoin " and " topQuestionTypes ++ "\n\n"
      else s6
    | none => s6
  let s8 :=
    match discordPatterns.mostActiveChannel with
    | some ch =>
      if ch ≠ "" ∧ ch ≠ "general" then
        s7 ++ "WORKFLOW PREFERENCE: Most active in #" ++ ch ++ " channel\n\n"
      else s7
    | none => s7
  let s9 :=
    match workflowPatterns.workingHours with
    | some _ =>
      s8 ++ "WORKING PATTERNS: " ++
        describeTechnicalWorkingPatterns workflowPatterns ++ "\n\n"
    | none => s8
  let trimmed := jsTrim s9
  if trimmed = "" then "No technical patterns detected yet." else trimmed

/-- The `discordPatterns` aggregate for a user with no recorded
technical patterns: empty tallies, default most-active channel. -/
def noPatternDiscordPatterns : DiscordPatterns :=
  { preferredLanguages := some [], preferredFrameworks := some [],
    complexityDistribution := some { simple := 0, medium := 0, complex := 0 },
    questionTypes := some [], mostActiveChannel := some "general" }

/-- The `workflowPatterns` aggregate with no working-hour data. -/
def noPatternWorkflowPatterns : WorkflowPatterns :=
  { workingHours := none, taskBreakdownPatterns := none, weeklyPatterns := none }

/- ------------------------------------------------------------------ -/
/- Theorems.                                                          -/
/- ------------------------------------------------------------------ -/

/-- Every entry of the difficulty score map is at least 1, and so is
the fallback. -/
theorem difficultyScore_pos (d : String) : 1 ≤ difficultyScore d := by
  unfold difficultyScore
  split_ifs <;> omega

/-- Claim C1 (counterexample): with only the interaction insert
failing, the project-context and skill-progression upserts are never
attempted, and with initialization failing the error propagates to
storeInteraction's caller — contradicting the claimed independence and
non-propagation. -/
theorem storeInteraction_claim_counterexample :
    (storeInteractionRun { init := false, insert := true, project := false, skill := false
      }).attempted = ["interactionInsert"] ∧
    (storeInteractionRun { init := true, insert := false, project := false, skill := false
      }).thrownToCaller = true := by
  decide

/-- Claim C1 (amended): failures of the project-context or
skill-progression upserts are swallowed locally, so all three
operations are attempted and nothing propagates; a failing interaction
insert is caught and logged inside storeInteraction (nothing
propagates) but prevents the two upserts from being attempted; a
failing initialization propagates to the caller. -/
theorem storeInteraction_error_handling :
    (∀ p s : Bool,
      storeInteractionRun { init := false, insert := false, project := p, skill := s } =
        { attempted := ["interactionInsert", "projectUpsert", "skillUpsert"],
          logged := (if p then ["updateProjectContext"] else []) ++
                    (if s then ["updateSkillProgression"] else []),
          thrownToCaller := false }) ∧
    (∀ p s : Bool,
      storeInteractionRun { init := false, insert := true, project := p, skill := s } =
        { attempted := ["interactionInsert"], logged := ["storeInteraction"],
          thrownToCaller := false }) ∧
    (∀ i p s : Bool,
      (storeInteractionRun { init := true, insert := i, project := p, skill := s
        }).thrownToCaller = true) := by
  refine ⟨?_, ?_, ?_⟩ <;> decide

/-- Claim C2: on inputs where no section qualifies, the compiler
returns the trimmed constant header `"TECHNICAL CONTEXT:"`, not the
fallback string — the `|| "No technical patterns detected yet."`
branch in the source is unreachable because the header keeps
`summary.trim()` non-empty. -/
theorem generateTechnicalContextSummary_no_patterns :
    generateTechnicalContextSummary [] noPatternDiscordPatterns [] []
        noPatternWorkflowPatterns = "TECHNICAL CONTEXT:" ∧
    "TECHNICAL CONTEXT:" ≠ "No technical patterns detected yet." := by
  constructor
  · simp only [generateTechnicalContextSummary, noPatternDiscordPatterns,
      noPatternWorkflowPatterns, List.mergeSort_nil]
    decide
  · decide

/-- Claim C3 (counterexample): the message
"let's implement a simple optimization" contains no complex-tier
keyword — in particular `"optimize"` is not a substring of
`"optimization"` — so `assessComplexity` returns `"medium"` (via
`"implement"`), not `"complex"` as the claim states. -/
theorem assessComplexity_example_counterexample :
    assessComplexity "let\x27s implement a simple optimization" = "medium" ∧
    assessComplexity "let\x27s implement a simple optimization" ≠ "complex" := by
  constructor
  · decide
  · decide

/-- Claim C3 (amended): the three keyword tiers are checked in fixed
priority, so any message containing a complex-tier keyword is
classified `"complex"`, and a message with a medium keyword but no
complex keyword is `"medium"`; the message
"let's implement a simple optimization" contains no complex keyword
and therefore yields `"medium"`. -/
theorem assessComplexity_priority :
    (∀ msg : String,
      (∃ k ∈ complexIndicators, jsIncludes (jsToLower msg) k = true) →
      assessComplexity msg = "complex") ∧
    (∀ msg : String,
      (∀ k ∈ complexIndicators, jsIncludes (jsToLower msg) k = false) →
      (∃ k ∈ mediumIndicators, jsIncludes (jsToLower msg) k = true) →
      assessComplexity msg = "medium") ∧
    assessComplexity "let\x27s implement a simple optimization" = "medium" := by
  refine ⟨?_, ?_, by decide⟩
  · intro msg hex
    obtain ⟨k, hk, hik⟩ := hex
    unfold assessComplexity
    rw [if_pos (List.any_eq_true.mpr ⟨k, hk, hik⟩)]
  · intro msg hno hex
    obtain ⟨k, hk, hik⟩ := hex
    unfold assessComplexity
    have hfalse : (complexIndicators.any fun ind => jsIncludes (jsToLower msg) ind) = false := by
      simp only [List.any_eq_false]
      intro x hx
      simp [hno x hx]
    rw [if_neg (by simp [hfalse]), if_pos (List.any_eq_true.mpr ⟨k, hk, hik⟩)]

/-- Claim C3 (witness): a message containing the complex keyword
`"refactor"` classifies as complex. -/
theorem assessComplexity_priority_witness :
    assessComplexity "please refactor this" = "complex" :=
  assessComplexity_priority.1 "please refactor this" ⟨"refactor", by decide, by decide⟩

/-- Claim C4 (counterexample): an interaction whose user message is
absent makes `extractTechnicalContext` throw (classifyQuestionType
calls `toLowerCase` on `undefined`), and concatenation renders the
absent message as the text "undefined", not the empty string. -/
theorem extractTechnicalContext_absent_counterexample :
    extractTechnicalContext
        { userId := "u", channel := "coding", userMessage := none,
          botResponse := some "hi" } = none ∧
    combinedText none (some "hi") = "undefined hi" := by
  constructor
  · rfl
  · rfl

/-- Claim C4 (amended): the tag extractors are pure, deterministic
functions, total on string inputs; but an absent/null message is not
treated as the empty string: `+` coerces it to the text "undefined",
`classifyQuestionType` and `assessComplexity` throw on it, and
`extractTechnicalContext` succeeds exactly when the user message is
present. -/
theorem tagExtraction_totality :
    (∀ s : String,
      classifyQuestionTypeAt (some s) = some (classifyQuestionType s) ∧
      assessComplexityAt (some s) = some (assessComplexity s)) ∧
    (classifyQuestionTypeAt none = none ∧ assessComplexityAt none = none) ∧
    combinedText none none = "undefined undefined" ∧
    (∀ i : Interaction, (extractTechnicalContext i).isSome = i.userMessage.isSome) := by
  refine ⟨fun s => ⟨rfl, rfl⟩, ⟨rfl, rfl⟩, rfl, ?_⟩
  intro i
  cases h : i.userMessage <;>
    simp [extractTechnicalContext, classifyQuestionTypeAt, assessComplexityAt,
      detectProjectMentionAt, h]

/-- Claim C5: fewer than 3 recorded interactions give
`"insufficient-data"`; five interactions with difficulties
simple, simple, simple, complex, complex give `"improving"`
(recent = all five averages to medium = 2, older group is empty,
scored 1). -/
theorem calculateLearningTrend_basic :
    (∀ l : List SkillInteraction, l.length < 3 →
      calculateLearningTrend l = "insufficient-data") ∧
    (∀ a b c d e : SkillInteraction,
      a.difficulty = "simple" → b.difficulty = "simple" → c.difficulty = "simple" →
      d.difficulty = "complex" → e.difficulty = "complex" →
      calculateLearningTrend [a, b, c, d, e] = "improving") := by
  constructor
  · intro l h
    unfold calculateLearningTrend
    rw [if_pos h]
  · intro a b c d e h1 h2 h3 h4 h5
    obtain ⟨ad⟩ := a
    obtain ⟨bd⟩ := b
    obtain ⟨cd⟩ := c
    obtain ⟨dd⟩ := d
    obtain ⟨ed⟩ := e
    simp only at h1 h2 h3 h4 h5
    subst h1 h2 h3 h4 h5
    decide

/-- Claim C5 (witness): both parts at concrete lists. -/
theorem calculateLearningTrend_basic_witness :
    calculateLearningTrend [] = "insufficient-data" ∧
    calculateLearningTrend
      [{ difficulty := "simple" }, { difficulty := "simple" }, { difficulty := "simple" },
       { difficulty := "complex" }, { difficulty := "complex" }] = "improving" :=
  ⟨calculateLearningTrend_basic.1 [] (by decide),
   calculateLearningTrend_basic.2 _ _ _ _ _ rfl rfl rfl rfl rfl⟩

/-- Claim C7: classifyQuestionType is first-match-wins evaluation of
the spec's ordered rule list (how-to, debugging, code-review,
best-practices, explanation, optimization, architecture, general),
and the two sample classifications hold. -/
theorem classifyQuestionType_precedence :
    (∀ msg : String,
      classifyQuestionType msg = firstMatchLabel (jsToLower msg) questionRules) ∧
    classifyQuestionType "how do I debug this error" = "how-to" ∧
    classifyQuestionType "there\x27s a bug, fix it" = "debugging" := by
  refine ⟨?_, by decide, by decide⟩
  intro msg
  simp only [classifyQuestionType, firstMatchLabel, questionRules, List.any_cons,
    List.any_nil, Bool.or_false, Bool.or_assoc]

/-- Claim C8: categorizeWorkingTime agrees with the spec's bucket
rule (morning 6–11 wins ties, then evening 18–23 over afternoon
12–17) on every peak-hour list, and the two sample classifications
hold. -/
theorem categorizeWorkingTime_buckets :
    (∀ hs : List Nat, categorizeWorkingTime hs = specWorkingTimeLabel hs) ∧
    categorizeWorkingTime [9, 10, 11] = "morning-person" ∧
    categorizeWorkingTime [9, 19] = "morning-person" := by
  refine ⟨?_, by decide, by decide⟩
  intro hs
  have hm : hs.filter (fun h => decide (6 ≤ h) && decide (h < 12)) =
      hs.filter (fun h => decide (6 ≤ h) && decide (h ≤ 11)) :=
    List.filter_congr (fun x _ => by simp [Nat.lt_succ_iff])
  have ha : hs.filter (fun h => decide (12 ≤ h) && decide (h < 18)) =
      hs.filter (fun h => decide (12 ≤ h) && decide (h ≤ 17)) :=
    List.filter_congr (fun x _ => by simp [Nat.lt_succ_iff])
  have he : hs.filter (fun h => decide (18 ≤ h) && decide (h < 24)) =
      hs.filter (fun h => decide (18 ≤ h) && decide (h ≤ 23)) :=
    List.filter_congr (fun x _ => by simp [Nat.lt_succ_iff])
  simp only [categorizeWorkingTime, specWorkingTimeLabel, hm, ha, he]

/-- Claim C10: for 3 to 5 recorded interactions the older group
(`slice(0,-5)`) is empty, its average is "unknown" and scores the
minimum 1, so the trend can never be `"declining"`. -/
theorem calculateLearningTrend_short_never_declining :
    ∀ l : List SkillInteraction, 3 ≤ l.length → l.length ≤ 5 →
      calculateLearningTrend l ≠ "declining" := by
  intro l h3 h5
  have hnot : ¬ l.length < 3 := by omega
  have hzero : l.length - 5 = 0 := by omega
  have havg : calculateAverageDifficulty ([] : List SkillInteraction) = "unknown" := rfl
  simp only [calculateLearningTrend, if_neg hnot, hzero, List.take_zero, List.drop_zero,
    havg]
  have h1 := difficultyScore_pos (calculateAverageDifficulty l)
  have hunk : difficultyScore "unknown" = 1 := rfl
  rw [hunk]
  split_ifs with hgt hlt
  · decide
  · omega
  · decide

/-- Claim C10 (witness): a three-interaction list is not declining. -/
theorem calculateLearningTrend_short_never_declining_witness :
    calculateLearningTrend
      [{ difficulty := "simple" }, { difficulty := "medium" },
       { difficulty := "complex" }] ≠ "declining" :=
  calculateLearningTrend_short_never_declining _ (by decide) (by decide)

/- Regex-scan lemmas for `extractCodeBlocks` (claim C6). -/

/-- A list headed by a non-backtick does not start with a triple. -/
theorem startsWithTriple_cons_ne {c : Char} (hc : c ≠ backtick) (xs : List Char) :
    startsWithTriple (c :: xs) = false := by
  cases xs with
  | nil => rfl
  | cons b ys =>
    cases ys with
    | nil => rfl
    | cons d zs => simp [startsWithTriple, hc]

/-- A list starting with a triple has at least three backticks. -/
theorem startsWithTriple_count {l : List Char} (h : startsWithTriple l = true) :
    3 ≤ l.count backtick := by
  cases l with
  | nil => simp [startsWithTriple] at h
  | cons a xs =>
    cases xs with
    | nil => simp [startsWithTriple] at h
    | cons b ys =>
      cases ys with
      | nil => simp [startsWithTriple] at h
      | cons c zs =>
        simp only [startsWithTriple, Bool.and_eq_true, decide_eq_true_eq] at h
        have ha : a = backtick := by tauto
        have hb : b = backtick := by tauto
        have hcc : c = backtick := by tauto
        subst ha hb hcc
        simp [List.count_cons]

/-- A backtick-free list has no backtick occurrences. -/
theorem count_eq_zero_noBT {l : List Char} (h : ∀ c ∈ l, c ≠ backtick) :
    l.count backtick = 0 :=
  List.count_eq_zero.mpr (fun hmem => (h _ hmem) rfl)

/-- A text with fewer than three backticks has no code-block match. -/
theorem codeBlockCount_zero_of_count :
    ∀ l : List Char, l.count backtick < 3 → codeBlockCount l = 0 := by
  intro l
  induction l using codeBlockCount.induct with
  | case1 => intro _; simp [codeBlockCount]
  | case2 head t hcond ih =>
    intro h
    have h3 := startsWithTriple_count hcond.1
    omega
  | case3 head t hcond ih =>
    intro h
    rw [codeBlockCount.eq_2, dif_neg hcond]
    apply ih
    rw [List.count_cons] at h
    split at h <;> omega

/-- The block scan walks over a backtick-free prefix unchanged. -/
theorem blockCount_skip {pre : List Char} (h : ∀ c ∈ pre, c ≠ backtick)
    (rest : List Char) : codeBlockCount (pre ++ rest) = codeBlockCount rest := by
  induction pre with
  | nil => simp
  | cons c t ih =>
    have hc : c ≠ backtick := h c (by simp)
    rw [List.cons_append, codeBlockCount.eq_2,
      dif_neg (by simp [startsWithTriple_cons_ne hc])]
    exact ih (fun x hx => h x (by simp [hx]))

/-- The closing-triple search finds the triple right after a
backtick-free body. -/
theorem findTripleIdx_noBT {body : List Char} (h : ∀ c ∈ body, c ≠ backtick)
    (rest : List Char) :
    findTripleIdx (body ++ backtick :: backtick :: backtick :: rest) =
      some body.length := by
  induction body with
  | nil =>
    simp only [List.nil_append, findTripleIdx]
    rw [if_pos (by simp [startsWithTriple])]
    simp
  | cons c t ih =>
    have hc : c ≠ backtick := h c (by simp)
    simp only [List.cons_append, findTripleIdx, List.append_eq]
    rw [if_neg (by simp [startsWithTriple_cons_ne hc])]
    rw [ih (fun x hx => h x (by simp [hx]))]
    simp [Option.map_some]

/-- One code-block match: opening triple, backtick-free body, closing
triple; the scan then resumes after the closing triple. -/
theorem blockCount_block {body : List Char} (hb : ∀ c ∈ body, c ≠ backtick)
    (rest : List Char) :
    codeBlockCount (backtick :: backtick :: backtick ::
        (body ++ backtick :: backtick :: backtick :: rest)) =
      1 + codeBlockCount rest := by
  rw [codeBlockCount.eq_2]
  have hdrop2 : List.drop 2 (backtick :: backtick ::
      (body ++ backtick :: backtick :: backtick :: rest)) =
      body ++ backtick :: backtick :: backtick :: rest := rfl
  rw [hdrop2, findTripleIdx_noBT hb rest]
  rw [dif_pos ⟨by simp [startsWithTriple], by simp⟩]
  simp only [Option.getD_some]
  have hsplit : body ++ backtick :: backtick :: backtick :: rest =
      (body ++ [backtick, backtick, backtick]) ++ rest := by simp
  have hlen : body.length + 3 = (body ++ [backtick, backtick, backtick]).length := by simp
  rw [hsplit, hlen, List.drop_left]

/-- The inline scan walks over a backtick-free prefix unchanged. -/
theorem inlineCount_skip {pre : List Char} (h : ∀ c ∈ pre, c ≠ backtick)
    (rest : List Char) : inlineCodeCount (pre ++ rest) = inlineCodeCount rest := by
  induction pre with
  | nil => simp
  | cons c t ih =>
    have hc : c ≠ backtick := h c (by simp)
    rw [List.cons_append, inlineCodeCount.eq_2, dif_neg (by simp [hc])]
    exact ih (fun x hx => h x (by simp [hx]))

/-- A backtick-free text has no inline match. -/
theorem inlineCount_noBT {l : List Char} (h : ∀ c ∈ l, c ≠ backtick) :
    inlineCodeCount l = 0 := by
  have hs := inlineCount_skip h ([] : List Char)
  simpa [inlineCodeCount] using hs

/-- Two adjacent backticks: the first opening attempt fails on the
empty run and the engine advances one character. -/
theorem inlineCount_double (rest : List Char) :
    inlineCodeCount (backtick :: backtick :: rest) =
      inlineCodeCount (backtick :: rest) := by
  rw [inlineCodeCount.eq_2, dif_neg (by simp [List.takeWhile_cons])]

/-- The backtick-free run before the next backtick is the `takeWhile`
of the inline scan. -/
theorem takeWhile_noBT {run : List Char} (h : ∀ c ∈ run, c ≠ backtick)
    (rest : List Char) :
    (run ++ backtick :: rest).takeWhile (fun x => x != backtick) = run := by
  induction run with
  | nil => simp [List.takeWhile_cons]
  | cons c t ih =>
    have hc : c ≠ backtick := h c (by simp)
    simp only [List.cons_append, List.takeWhile_cons]
    rw [if_pos (by simp [hc]), ih (fun x hx => h x (by simp [hx]))]

/-- The corresponding `dropWhile` stops at the closing backtick. -/
theorem dropWhile_noBT {run : List Char} (h : ∀ c ∈ run, c ≠ backtick)
    (rest : List Char) :
    (run ++ backtick :: rest).dropWhile (fun x => x != backtick) =
      backtick :: rest := by
  induction run with
  | nil => simp [List.dropWhile_cons]
  | cons c t ih =>
    have hc : c ≠ backtick := h c (by simp)
    simp only [List.cons_append, List.dropWhile_cons]
    rw [if_pos (by simp [hc])]
    exact ih (fun x hx => h x (by simp [hx]))

/-- One inline match: opening backtick, non-empty backtick-free run,
closing backtick; the scan resumes after the closing backtick. -/
theorem inlineCount_match {run : List Char} (hr : ∀ c ∈ run, c ≠ backtick)
    (hne : run ≠ []) (rest : List Char) :
    inlineCodeCount (backtick :: (run ++ backtick :: rest)) =
      1 + inlineCodeCount rest := by
  rw [inlineCodeCount.eq_2,
    dif_pos ⟨rfl, by rw [takeWhile_noBT hr rest]; exact hne,
      by rw [dropWhile_noBT hr rest]; simp⟩]
  rw [dropWhile_noBT hr rest]
  simp

/-- An opening backtick with no later backtick never matches. -/
theorem inlineCount_open_only {post : List Char} (h : ∀ c ∈ post, c ≠ backtick) :
    inlineCodeCount (backtick :: post) = 0 := by
  rw [inlineCodeCount.eq_2, dif_neg (by
    have hd : post.dropWhile (fun x => x != backtick) = [] :=
      List.dropWhile_eq_nil_iff.mpr (fun x hx => by simp [h x hx])
    simp [hd])]
  exact inlineCount_noBT h

/-- Inline-match count of one triple-backtick block with a non-empty
body followed by one inline span: the inline regex matches once across
the block body and once more around the inline span, totalling 2. -/
theorem inlineCount_family {body mid inl post : List Char}
    (hb : ∀ c ∈ body, c ≠ backtick) (hm : ∀ c ∈ mid, c ≠ backtick)
    (hi : ∀ c ∈ inl, c ≠ backtick) (hp : ∀ c ∈ post, c ≠ backtick)
    (hbne : body ≠ []) (hine : inl ≠ []) :
    inlineCodeCount (backtick :: backtick :: backtick ::
      (body ++ backtick :: backtick :: backtick ::
        (mid ++ backtick :: (inl ++ backtick :: post)))) = 2 := by
  rw [inlineCount_double, inlineCount_double, inlineCount_match hb hbne,
    inlineCount_double]
  by_cases hmid : mid = []
  · subst hmid
    simp only [List.nil_append]
    rw [inlineCount_double, inlineCount_match hi hine, inlineCount_noBT hp]
  · rw [inlineCount_match hm hmid, inlineCount_skip hi, inlineCount_open_only hp]

/-- Block-match count of the same text: exactly one block. -/
theorem blockCount_family {body mid inl post : List Char}
    (hb : ∀ c ∈ body, c ≠ backtick) (hm : ∀ c ∈ mid, c ≠ backtick)
    (hi : ∀ c ∈ inl, c ≠ backtick) (hp : ∀ c ∈ post, c ≠ backtick) :
    codeBlockCount (backtick :: backtick :: backtick ::
      (body ++ backtick :: backtick :: backtick ::
        (mid ++ backtick :: (inl ++ backtick :: post)))) = 1 := by
  rw [blockCount_block hb]
  have hc : (mid ++ backtick :: (inl ++ backtick :: post)).count backtick = 2 := by
    simp [List.count_append, List.count_cons, count_eq_zero_noBT hm,
      count_eq_zero_noBT hi, count_eq_zero_noBT hp]
  rw [codeBlockCount_zero_of_count _ (by omega)]

/-- Claim C6 (counterexample): the text with one triple-backtick span
and one inline span yields inline count 2, not 1 — the inline regex
also matches across the block delimiters. -/
theorem extractCodeBlocks_example_counterexample :
    extractCodeBlocks "```x``` and `y`" =
      { blocks := 1, inline := 2, hasCode := true } ∧
    extractCodeBlocks "```x``` and `y`" ≠
      { blocks := 1, inline := 1, hasCode := true } := by
  have h : extractCodeBlocks "```x``` and `y`" =
      { blocks := 1, inline := 2, hasCode := true } := by
    simp [extractCodeBlocks, codeBlockCount, inlineCodeCount, findTripleIdx,
      startsWithTriple, backtick, String.data]
  exact ⟨h, by rw [h]; decide⟩

/-- Claim C6 (amended): for every text made of one triple-backtick
span with a non-empty backtick-free body and one later single-backtick
inline span (all other segments backtick-free), extractCodeBlocks
reports one block, hasCode, and an inline count of 2 — the inline
regex additionally matches across the triple-backtick delimiters. -/
theorem extractCodeBlocks_one_block_one_inline :
    ∀ pre body mid inl post : String,
      (∀ c ∈ pre.data, c ≠ backtick) → (∀ c ∈ body.data, c ≠ backtick) →
      (∀ c ∈ mid.data, c ≠ backtick) → (∀ c ∈ inl.data, c ≠ backtick) →
      (∀ c ∈ post.data, c ≠ backtick) → body ≠ "" → inl ≠ "" →
      extractCodeBlocks (pre ++ "```" ++ body ++ "```" ++ mid ++ "`" ++ inl ++ "`" ++ post) =
        { blocks := 1, inline := 2, hasCode := true } := by
  intro pre body mid inl post hpre hb hm hi hp hbne hine
  have hbody : body.data ≠ [] := by
    intro hx
    exact hbne (String.ext (hx.trans rfl))
  have hinl : inl.data ≠ [] := by
    intro hx
    exact hine (String.ext (hx.trans rfl))
  have h3 : ("```" : String).data = [backtick, backtick, backtick] := rfl
  have h1 : ("`" : String).data = [backtick] := rfl
  have hdata : (pre ++ "```" ++ body ++ "```" ++ mid ++ "`" ++ inl ++ "`" ++ post).data =
      pre.data ++ (backtick :: backtick :: backtick ::
        (body.data ++ backtick :: backtick :: backtick ::
          (mid.data ++ backtick :: (inl.data ++ backtick :: post.data)))) := by
    simp [String.data_append, h3, h1]
    rfl
  simp only [extractCodeBlocks, hdata, blockCount_skip hpre, inlineCount_skip hpre,
    blockCount_family hb hm hi hp, inlineCount_family hb hm hi hp hbody hinl]
  rfl

/-- Claim C6 (witness): the amended statement at the concrete text
"```x``` and `y`". -/
theorem extractCodeBlocks_one_block_one_inline_witness :
    extractCodeBlocks ("" ++ "```" ++ "x" ++ "```" ++ " and " ++ "`" ++ "y" ++ "`" ++ "") =
      { blocks := 1, inline := 2, hasCode := true } :=
  extractCodeBlocks_one_block_one_inline "" "x" " and " "y" ""
    (by decide) (by decide) (by decide) (by decide) (by decide) (by decide) (by decide)

/- Channel-breakdown aggregation lemmas (claim C9). -/

/-- Bumping a channel raises the total count by one. -/
theorem sumCounts_bumpChannel (acc : List (String × Nat)) (ch : String) :
    sumCounts (bumpChannel acc ch) = sumCounts acc + 1 := by
  induction acc with
  | nil => simp [bumpChannel, sumCounts]
  | cons p rest ih =>
    obtain ⟨k, n⟩ := p
    by_cases hk : k = ch
    · simp [bumpChannel, hk, sumCounts]
      omega
    · simp [bumpChannel, hk, sumCounts] at ih ⊢
      omega

/-- The channel breakdown counts every interaction exactly once. -/
theorem sumCounts_channelBreakdown (l : List StoredInteraction) :
    sumCounts (channelBreakdown l) = l.length := by
  suffices h : ∀ acc, sumCounts (l.foldl (fun acc r => bumpChannel acc r.channel) acc) =
      sumCounts acc + l.length by
    simpa [channelBreakdown, sumCounts] using h []
  induction l with
  | nil => intro acc; simp
  | cons r t ih =>
    intro acc
    simp only [List.foldl_cons]
    rw [ih (bumpChannel acc r.channel), sumCounts_bumpChannel]
    simp only [List.length_cons]
    omega

/-- Storing a batch one insert at a time appends it to the store. -/
theorem storeAllInteractions_append (store rs : List StoredInteraction) :
    storeAllInteractions store rs = store ++ rs := by
  induction rs generalizing store with
  | nil => simp [storeAllInteractions]
  | cons r t ih =>
    simp only [storeAllInteractions, List.foldl_cons] at ih ⊢
    rw [ih]
    simp [insertInteraction]

/-- Claim C9 (counterexample): storing 51 interactions inside the
lookback window yields channel-count totals summing to 50, not 51 —
the query is bounded to the most recent 50 documents. -/
theorem channelBreakdown_limit_counterexample :
    sumCounts (channelBreakdown (recentInteractionsQuery
      (storeAllInteractions []
        (List.replicate 51 { userId := "u", channel := "general", timestamp := 0 }))
      "u" 0)) = 50 ∧ (50 : Nat) ≠ 51 := by
  constructor
  · rw [storeAllInteractions_append]
    simp only [List.nil_append]
    unfold recentInteractionsQuery
    have hfilter : (List.replicate 51
        ({ userId := "u", channel := "general", timestamp := 0 } : StoredInteraction)).filter
        (fun r => r.userId == "u" && decide ((0 : Int) ≤ r.timestamp)) =
        List.replicate 51 { userId := "u", channel := "general", timestamp := 0 } :=
      List.filter_eq_self.mpr (fun r hr => by
        rw [List.eq_of_mem_replicate hr]
        decide)
    rw [hfilter, sumCounts_channelBreakdown, List.length_take, List.length_mergeSort,
      List.length_replicate]
    decide
  · decide

/-- Claim C9 (amended): storing N interactions for a user and
aggregating over a window covering all their timestamps yields
channel-count totals summing to exactly min(50, N) — the lookback
query truncates to the most recent 50 documents. -/
theorem channelBreakdown_total :
    ∀ (rs : List StoredInteraction) (userId : String) (cutoff : Int),
      (∀ r ∈ rs, r.userId = userId ∧ cutoff ≤ r.timestamp) →
      sumCounts (channelBreakdown (recentInteractionsQuery
        (storeAllInteractions [] rs) userId cutoff)) = min 50 rs.length := by
  intro rs uid cutoff h
  rw [storeAllInteractions_append]
  simp only [List.nil_append]
  unfold recentInteractionsQuery
  have hfilter : rs.filter (fun r => r.userId == uid && decide (cutoff ≤ r.timestamp)) = rs :=
    List.filter_eq_self.mpr (fun r hr => by
      obtain ⟨h1, h2⟩ := h r hr
      simp [h1, h2])
  rw [hfilter, sumCounts_channelBreakdown, List.length_take, List.length_mergeSort]

/-- Claim C9 (witness): two stored interactions, all inside the
window, sum to min(50, 2) = 2. -/
theorem channelBreakdown_total_witness :
    sumCounts (channelBreakdown (recentInteractionsQuery
      (storeAllInteractions []
        [{ userId := "u", channel := "coding", timestamp := 5 },
         { userId := "u", channel := "general", timestamp := 7 }]) "u" 0)) =
      min 50 ([{ userId := "u", channel := "coding", timestamp := 5 },
               { userId := "u", channel := "general", timestamp := 7 }] :
        List StoredInteraction).length :=
  channelBreakdown_total _ "u" 0 (by decide)

end MemoryService
